import Mathlib

/-!
Verification of the `RobleApiClient` request/auth/retry core (src/index.tsx).

The TypeScript client is shallowly embedded as pure Lean functions:

* JSON values (`Json`) with JavaScript truthiness, field access and
  string coercion mirroring the dynamic checks of the source;
* headers as association lists with object-spread semantics: a later
  assignment to an existing key overwrites its value in place, a fresh
  key is appended;
* the token store (`TokenState`) with the observer modelled as a list of
  emitted notification events;
* the network as an oracle: a list of `Response`s consumed one per
  `http.request` call, with a trace of every request actually sent
  (recorded before the response is consumed, so a request that never
  receives a response still appears in the trace);
* `JSON.stringify` of a request body is modelled by transmitting the
  `Json` value itself: stringification is injective on this model, so
  equalities between transmitted bodies are preserved;
* each `throw new RobleApiException(...)` site of the source is tagged
  with an `ErrKind` identifying the throw site, alongside the exact
  message string the source builds.
-/

namespace Roble

/-- JSON values as manipulated by the client (numbers as integers: no
claim involves non-integral arithmetic). -/
inductive Json where
  | null : Json
  | bool (b : Bool) : Json
  | num (n : Int) : Json
  | str (s : String) : Json
  | arr (elems : List Json) : Json
  | obj (fields : List (String × Json)) : Json

/-- JavaScript truthiness of a value: `null`, `false`, `0` and `""` are
falsy; every array and object (even empty) is truthy. -/
def jsTruthy : Json → Bool
  | .null => false
  | .bool b => b
  | .num n => n != 0
  | .str s => s != ""
  | .arr _ => true
  | .obj _ => true

/-- Truthiness of a possibly-absent value (`undefined` is falsy). -/
def optTruthy : Option Json → Bool
  | some j => jsTruthy j
  | none => false

/-- Association lookup keeping the LAST binding of a key (the behavior
of a JavaScript object / `JSON.parse` on duplicate keys). -/
def assocLast : List (String × Json) → String → Option Json
  | [], _ => none
  | (k', v) :: rest, k =>
    match assocLast rest k with
    | some r => some r
    | none => if k' = k then some v else none

/-- Property access `j?.k`: `none` models `undefined` (missing field or
access on a non-object). -/
def getField : Json → String → Option Json
  | .obj fields, k => assocLast fields k
  | _, _ => none

mutual

/-- JavaScript `String(x)` / template-literal coercion. -/
def jsToString : Json → String
  | .null => "null"
  | .bool b => cond b "true" "false"
  | .num n => toString n
  | .str s => s
  | .arr xs => String.intercalate "," (jsToStringElems xs)
  | .obj _ => "[object Object]"

/-- Array elements under `Array.prototype.toString`: `null` elements
render as the empty string. -/
def jsToStringElems : List Json → List String
  | [] => []
  | .null :: xs => "" :: jsToStringElems xs
  | x :: xs => jsToString x :: jsToStringElems xs

end

/-- Property assignment `o[k] = v` on an object literal represented as
an ordered field list: overwrite in place if the key exists, else
append. -/
def setField (fields : List (String × Json)) (k : String) (v : Json) :
    List (String × Json) :=
  if fields.any (fun kv => kv.1 = k) then
    fields.map (fun kv => if kv.1 = k then (k, v) else kv)
  else fields ++ [(k, v)]

-- ============================
--  Headers
-- ============================

/-- Request headers: an ordered key/value list, as a JS object. -/
abbrev Headers := List (String × String)

/-- `h[k] = v` on a header object. -/
def setHeader (h : Headers) (k v : String) : Headers :=
  if h.any (fun kv => kv.1 = k) then
    h.map (fun kv => if kv.1 = k then (k, v) else kv)
  else h ++ [(k, v)]

/-- Header lookup. -/
def getHeader : Headers → String → Option String
  | [], _ => none
  | (k', v) :: rest, k => if k' = k then some v else getHeader rest k

/-- Object spread `{...h, ...adds}`: assign every binding of `adds`
onto `h` in order. -/
def overlayHeaders (h : Headers) (adds : Headers) : Headers :=
  adds.foldl (fun acc kv => setHeader acc kv.1 kv.2) h

/-- `RobleApiClient.mergeHeaders`:
`{ Content-Type: application/json, ...(base ?? {}), ...(extra ?? {}) }`. -/
def mergeHeaders (base extra : Option Headers) : Headers :=
  overlayHeaders
    (overlayHeaders [("Content-Type", "application/json")] (base.getD []))
    (extra.getD [])

-- ============================
--  Configuration
-- ============================

inductive Kind where
  | auth : Kind
  | database : Kind
deriving DecidableEq, Repr

inductive Method where
  | GET : Method
  | POST : Method
  | PUT : Method
  | DELETE : Method
deriving DecidableEq, Repr

/-- The default `pathBuilder` of the constructor. -/
def defaultPathBuilder : Kind → String → String → String :=
  fun kind endpoint codeUrl =>
    match kind with
    | .auth => "/auth/" ++ codeUrl ++ "/" ++ endpoint
    | .database => "/database/" ++ codeUrl ++ "/" ++ endpoint

/-- User-supplied `RobleApiConfig` (optional fields as `Option`). -/
structure RobleApiConfig where
  baseURL : String
  codeUrl : String
  authHeaders : Option Headers := none
  dataHeaders : Option Headers := none
  timeoutMs : Option Nat := none
  pathBuilder : Option (Kind → String → String → String) := none

/-- Effective configuration after the constructor merged in defaults. -/
structure ClientConfig where
  baseURL : String
  codeUrl : String
  authHeaders : Option Headers
  dataHeaders : Option Headers
  timeoutMs : Nat
  pathBuilder : Kind → String → String → String

/-- `baseURL.replace(/\/+$/, '')`. -/
def trimTrailingSlashes (s : String) : String :=
  String.mk ((s.data.reverse.dropWhile (fun c => c = '/')).reverse)

/-- The constructor: `{ timeoutMs: DEFAULT, pathBuilder: default,
...config }`, with the axios instance normalizing `baseURL`. -/
def resolveConfig (c : RobleApiConfig) : ClientConfig where
  baseURL := trimTrailingSlashes c.baseURL
  codeUrl := c.codeUrl
  authHeaders := c.authHeaders
  dataHeaders := c.dataHeaders
  timeoutMs := c.timeoutMs.getD 30000
  pathBuilder := c.pathBuilder.getD defaultPathBuilder

/-- `RobleApiClient.buildPath`. -/
def buildPath (c : ClientConfig) (kind : Kind) (endpoint : String) : String :=
  c.pathBuilder kind endpoint c.codeUrl

-- ============================
--  Token store
-- ============================

/-- The two private token fields (`null` as `none`; values kept as
`Json` because `login` stores whatever the response body held). -/
structure TokenState where
  accessToken : Option Json := none
  refreshToken : Option Json := none

def getAccessToken (st : TokenState) : Option Json := st.accessToken

def getRefreshToken (st : TokenState) : Option Json := st.refreshToken

/-- `updateAccessToken`: writes the field and fires `onTokenUpdate`;
the emitted notification is returned as an event. -/
def updateAccessToken (st : TokenState) (t : Option Json) :
    TokenState × List (Option Json) :=
  ({ st with accessToken := t }, [t])

/-- `updateRefreshToken`: writes the field, no notification. -/
def updateRefreshToken (st : TokenState) (t : Option Json) : TokenState :=
  { st with refreshToken := t }

/-- `setTokens`. -/
def setTokens (st : TokenState) (access refresh : Json) :
    TokenState × List (Option Json) :=
  let (st1, ev) := updateAccessToken st (some access)
  (updateRefreshToken st1 (some refresh), ev)

/-- `clearTokens`. -/
def clearTokens (st : TokenState) : TokenState × List (Option Json) :=
  let (st1, ev) := updateAccessToken st none
  (updateRefreshToken st1 none, ev)

-- ============================
--  Requests, responses, network oracle
-- ============================

/-- An HTTP response as classified by the pipeline (`validateStatus`
accepts every status, so classification is manual). -/
structure Response where
  status : Nat
  data : Json

/-- The network: responses consumed in order, one per request sent. -/
abbrev Oracle := List Response

/-- The `AxiosRequestConfig` built by `_makeRequest`, before the
request interceptor runs. -/
structure AxiosCfg where
  url : String
  method : Method
  headers : Headers
  params : Option (List (String × Json))
  data : Option Json

/-- One request on the wire: the cfg it was built from, plus the
headers actually transmitted after the interceptor ran. -/
structure SentRequest where
  cfg : AxiosCfg
  headers : Headers

/-- The request interceptor installed in the constructor: force
`Content-Type`, then overlay the bearer header if the access token is
truthy. -/
def applyInterceptor (accessToken : Option Json) (h : Headers) : Headers :=
  let h1 := setHeader h "Content-Type" "application/json"
  if optTruthy accessToken then
    setHeader h1 "Authorization" ("Bearer " ++ jsToString (accessToken.getD .null))
  else h1

/-- The request as it reaches the wire: the cfg with the interceptor
run against the current access token. -/
def sendOf (st : TokenState) (cfg : AxiosCfg) : SentRequest :=
  ⟨cfg, applyInterceptor st.accessToken cfg.headers⟩

/-- `this.http.request(cfg)`: run the interceptor with the current
access token, record the sent request, consume the next oracle
response (`none` when the oracle is exhausted: the request hangs). -/
def httpRequest (st : TokenState) (cfg : AxiosCfg) (o : Oracle) :
    SentRequest × Option (Response × Oracle) :=
  match o with
  | [] => (sendOf st cfg, none)
  | r :: rest => (sendOf st cfg, some (r, rest))

-- ============================
--  Pipeline results
-- ============================

/-- The throw sites of the source, tagged (the source collapses all of
them into the single `RobleApiException` type; the tag identifies which
`throw` statement produced the failure). -/
inductive ErrKind where
  | apiRequestFailed : ErrKind
  | authRefreshFailed : ErrKind
  | noRefreshToken : ErrKind
  | invalidRefreshResponse : ErrKind
  | noActiveSession : ErrKind
  | insertFailed : ErrKind
deriving DecidableEq, Repr

inductive Outcome (α : Type) where
  | ok (value : α) : Outcome α
  | err (kind : ErrKind) (message : String) : Outcome α
  | hang : Outcome α

def Outcome.isErr {α : Type} : Outcome α → Bool
  | .err _ _ => true
  | _ => false

def Outcome.kindIs {α : Type} (oc : Outcome α) (k : ErrKind) : Bool :=
  match oc with
  | .err k' _ => k' = k
  | _ => false

/-- Result of running one operation: its outcome, the token state it
left behind, the observer notifications it emitted, the requests it
sent, and the unconsumed rest of the oracle. -/
structure RunResult (α : Type) where
  outcome : Outcome α
  state : TokenState
  events : List (Option Json)
  trace : List SentRequest
  oracle : Oracle

-- ============================
--  The request pipeline
-- ============================

/-- Options of `_makeRequest`. -/
structure ReqOpts where
  body : Option Json := none
  query : Option (List (String × Json)) := none
  extraHeaders : Option Headers := none
  isAuthRequest : Bool := false

/-- The `AxiosRequestConfig` assembled by `_makeRequest`: path, merged
headers, query params, and the body (only when truthy, per
`data: body ? JSON.stringify(body) : undefined`). -/
def buildCfg (c : ClientConfig) (kind : Kind) (method : Method)
    (endpoint : String) (opts : ReqOpts) : AxiosCfg where
  url := buildPath c kind endpoint
  method := method
  headers := mergeHeaders
    (match kind with
     | .auth => c.authHeaders
     | .database => c.dataHeaders)
    opts.extraHeaders
  params := opts.query
  data :=
    match opts.body with
    | some b => if jsTruthy b then some b else none
    | none => none

abbrev is2xx (r : Response) : Bool := decide (200 ≤ r.status ∧ r.status < 300)

/-- The guard of the 401-refresh branch:
`res.status === 401 && !isAuthRequest && this.refreshToken`. -/
def shouldRefresh (st : TokenState) (isAuthRequest : Bool) (r : Response) : Bool :=
  r.status == 401 && !isAuthRequest && optTruthy st.refreshToken

/-- The message of the generic failure branch:
``(res.data && (res.data.message || res.data.error)) || `HTTP ${res.status}` ``
passed through `String(...)`. -/
def extractMessage (r : Response) : String :=
  let inner : Option Json :=
    if optTruthy (getField r.data "message") then getField r.data "message"
    else getField r.data "error"
  let combined : Option Json :=
    if jsTruthy r.data then inner else some r.data
  if optTruthy combined then jsToString (combined.getD .null)
  else "HTTP " ++ toString r.status

/-- `_makeRequest` restricted to its non-refreshing path: build the
cfg, send once, classify. This is the exact behavior of `_makeRequest`
when the 401-refresh branch cannot fire, which is the case for the
inner call made by `refreshAccessToken` (it passes
`isAuthRequest = true`, so the branch's guard is statically false). -/
def requestNoRefresh (c : ClientConfig) (st : TokenState) (kind : Kind)
    (method : Method) (endpoint : String) (opts : ReqOpts) (o : Oracle) :
    RunResult Json :=
  let cfg := buildCfg c kind method endpoint opts
  match httpRequest st cfg o with
  | (sent, none) => ⟨.hang, st, [], [sent], []⟩
  | (sent, some (r, o')) =>
    if is2xx r then ⟨.ok r.data, st, [], [sent], o'⟩
    else ⟨.err .apiRequestFailed (extractMessage r), st, [], [sent], o'⟩

/-- Options of the inner `refresh-token` request of
`refreshAccessToken`: `{ body: { refreshToken: this.refreshToken },
isAuthRequest: true }`. -/
def refreshOpts (st : TokenState) : ReqOpts where
  body := some (.obj [("refreshToken", st.refreshToken.getD .null)])
  isAuthRequest := true

/-- `RobleApiClient.refreshAccessToken`: guard on a truthy refresh
token, POST `refresh-token` with `isAuthRequest = true` (hence
`requestNoRefresh`), require a truthy `accessToken` in the response,
and rewrite only the access token. -/
def refreshAccessToken (c : ClientConfig) (st : TokenState) (o : Oracle) :
    RunResult Unit :=
  if !optTruthy st.refreshToken then
    ⟨.err .noRefreshToken "No hay refresh token disponible.", st, [], [], o⟩
  else
    match requestNoRefresh c st .auth .POST "refresh-token" (refreshOpts st) o with
    | ⟨.ok data, st1, ev1, tr1, o1⟩ =>
      if !optTruthy (getField data "accessToken") then
        ⟨.err .invalidRefreshResponse "Respuesta inválida al refrescar token.",
          st1, ev1, tr1, o1⟩
      else
        match updateAccessToken st1 (getField data "accessToken") with
        | (st', ev) => ⟨.ok (), st', ev1 ++ ev, tr1, o1⟩
    | ⟨.err k m, st1, ev1, tr1, o1⟩ => ⟨.err k m, st1, ev1, tr1, o1⟩
    | ⟨.hang, st1, ev1, tr1, o1⟩ => ⟨.hang, st1, ev1, tr1, o1⟩

/-- `RobleApiClient._makeRequest`: send, return on 2xx, on
`401 && !isAuthRequest && refreshToken` refresh once and resend the
identical cfg once, wrapping a refresh failure; any other failure
(including a failed retry) throws the status-derived message. -/
def makeRequest (c : ClientConfig) (st : TokenState) (kind : Kind)
    (method : Method) (endpoint : String) (opts : ReqOpts) (o : Oracle) :
    RunResult Json :=
  let cfg := buildCfg c kind method endpoint opts
  match httpRequest st cfg o with
  | (sent, none) => ⟨.hang, st, [], [sent], []⟩
  | (sent, some (r, o')) =>
    if is2xx r then ⟨.ok r.data, st, [], [sent], o'⟩
    else if shouldRefresh st opts.isAuthRequest r then
      match refreshAccessToken c st o' with
      | ⟨.ok _, st1, ev1, tr1, o1⟩ =>
        match httpRequest st1 cfg o1 with
        | (sent2, none) =>
          ⟨.hang, st1, ev1, sent :: tr1 ++ [sent2], []⟩
        | (sent2, some (r2, o2)) =>
          if is2xx r2 then
            ⟨.ok r2.data, st1, ev1, sent :: tr1 ++ [sent2], o2⟩
          else
            ⟨.err .apiRequestFailed (extractMessage r2), st1, ev1,
              sent :: tr1 ++ [sent2], o2⟩
      | ⟨.err _ m, st1, ev1, tr1, o1⟩ =>
        ⟨.err .authRefreshFailed ("Token expirado y no se pudo refrescar: " ++ m),
          st1, ev1, sent :: tr1, o1⟩
      | ⟨.hang, st1, ev1, tr1, o1⟩ => ⟨.hang, st1, ev1, sent :: tr1, o1⟩
    else ⟨.err .apiRequestFailed (extractMessage r), st, [], [sent], o'⟩

-- ============================
--  AUTH operations
-- ============================

/-- `register(name, email, password)`. -/
def register (c : ClientConfig) (st : TokenState)
    (name email password : String) (o : Oracle) : RunResult Json :=
  makeRequest c st .auth .POST "signup-direct"
    { body := some (.obj [("name", .str name), ("email", .str email),
        ("password", .str password)]),
      isAuthRequest := true } o

/-- `refreshTokenManual(refreshToken)`. -/
def refreshTokenManual (c : ClientConfig) (st : TokenState)
    (refreshTok : String) (o : Oracle) : RunResult Json :=
  makeRequest c st .auth .POST "refresh-token"
    { body := some (.obj [("refreshToken", .str refreshTok)]),
      isAuthRequest := true } o

/-- `login(email, password)`: POST `login` with `isAuthRequest = true`;
on success store both tokens when `data?.accessToken &&
data?.refreshToken` is truthy; return the raw response body. -/
def login (c : ClientConfig) (st : TokenState) (email password : String)
    (o : Oracle) : RunResult Json :=
  match makeRequest c st .auth .POST "login"
    { body := some (.obj [("email", .str email), ("password", .str password)]),
      isAuthRequest := true } o with
  | ⟨.ok data, st1, ev1, tr1, o1⟩ =>
    if optTruthy (getField data "accessToken")
        && optTruthy (getField data "refreshToken") then
      match setTokens st1
        ((getField data "accessToken").getD .null)
        ((getField data "refreshToken").getD .null) with
      | (st', ev) => ⟨.ok data, st', ev1 ++ ev, tr1, o1⟩
    else ⟨.ok data, st1, ev1, tr1, o1⟩
  | ⟨.err k m, st1, ev1, tr1, o1⟩ => ⟨.err k m, st1, ev1, tr1, o1⟩
  | ⟨.hang, st1, ev1, tr1, o1⟩ => ⟨.hang, st1, ev1, tr1, o1⟩

/-- `logout()`: guard on a truthy access token (else throw without any
network call), POST `logout` with no body and `isAuthRequest = true`,
and clear both tokens on success. -/
def logout (c : ClientConfig) (st : TokenState) (o : Oracle) :
    RunResult Unit :=
  if !optTruthy st.accessToken then
    ⟨.err .noActiveSession "No hay token activo para cerrar sesión.",
      st, [], [], o⟩
  else
    match makeRequest c st .auth .POST "logout" { isAuthRequest := true } o with
    | ⟨.ok _, st1, ev1, tr1, o1⟩ =>
      match clearTokens st1 with
      | (st', ev) => ⟨.ok (), st', ev1 ++ ev, tr1, o1⟩
    | ⟨.err k m, st1, ev1, tr1, o1⟩ => ⟨.err k m, st1, ev1, tr1, o1⟩
    | ⟨.hang, st1, ev1, tr1, o1⟩ => ⟨.hang, st1, ev1, tr1, o1⟩

-- ============================
--  TABLE / CRUD operations
-- ============================

/-- `createTable(tableName, columns)`. -/
def createTable (c : ClientConfig) (st : TokenState) (tableName : String)
    (columns : List Json) (o : Oracle) : RunResult Json :=
  makeRequest c st .database .POST "create-table"
    { body := some (.obj [("tableName", .str tableName),
        ("description",
          .str ("Tabla " ++ tableName ++ " creada desde cliente móvil")),
        ("columns", .arr columns)]) } o

/-- `getTableData(tableName)`. -/
def getTableData (c : ClientConfig) (st : TokenState) (tableName : String)
    (o : Oracle) : RunResult Json :=
  makeRequest c st .database .GET "table-data"
    { query := some [("schema", .str "public"), ("table", .str tableName)] } o

/-- `x.length` with JS semantics: arrays and strings have a numeric
length, objects may carry a `length` field, other values yield
`undefined`. -/
def jsLength : Json → Option Json
  | .arr xs => some (.num xs.length)
  | .str s => some (.num s.length)
  | .obj fields => assocLast fields "length"
  | _ => none

/-- Index access `x[i]` for a numeric index. -/
def jsIndex : Json → Nat → Option Json
  | .arr xs, i => xs.get? i
  | .str s, i => (s.data.get? i).map (fun ch => .str (String.mk [ch]))
  | .obj fields, i => assocLast fields (toString i)
  | _, _ => none

/-- Object spread `{...x}` into a fresh object literal. -/
def jsSpread : Json → Json
  | .obj fields => .obj fields
  | .arr xs => .obj ((List.range xs.length).zip xs |>.map
      (fun p => (toString p.1, p.2)))
  | .str s => .obj ((List.range s.length).zip s.data |>.map
      (fun p => (toString p.1, .str (String.mk [p.2]))))
  | _ => .obj []

/-- `typeof res === 'object'` for a value already known truthy. -/
def isObjectTyped : Json → Bool
  | .obj _ => true
  | .arr _ => true
  | _ => false

/-- `create(tableName, data)`: POST `insert` with
`{tableName, records: [data]}`; return `{...res.inserted[0]}` when
`res?.inserted?.length` is truthy, else the response itself when it is
a truthy object, else throw. -/
def create (c : ClientConfig) (st : TokenState) (tableName : String)
    (data : List (String × Json)) (o : Oracle) : RunResult Json :=
  match makeRequest c st .database .POST "insert"
    { body := some (.obj [("tableName", .str tableName),
        ("records", .arr [.obj data])]) } o with
  | ⟨.ok res, st1, ev1, tr1, o1⟩ =>
    if optTruthy ((getField res "inserted").bind jsLength) then
      ⟨.ok (jsSpread (((getField res "inserted").bind
          (fun v => jsIndex v 0)).getD .null)),
        st1, ev1, tr1, o1⟩
    else if jsTruthy res && isObjectTyped res then
      ⟨.ok res, st1, ev1, tr1, o1⟩
    else
      ⟨.err .insertFailed "No se pudo insertar el registro",
        st1, ev1, tr1, o1⟩
  | ⟨.err k m, st1, ev1, tr1, o1⟩ => ⟨.err k m, st1, ev1, tr1, o1⟩
  | ⟨.hang, st1, ev1, tr1, o1⟩ => ⟨.hang, st1, ev1, tr1, o1⟩

/-- `Array.isArray`. -/
def isArray : Json → Bool
  | .arr _ => true
  | _ => false

/-- The response-shape handling of `read`: return the response when it
is an array, else its truthy `data` field, else an empty array. -/
def readShape (res : Json) : Json :=
  if isArray res then res
  else if optTruthy (getField res "data") then (getField res "data").getD .null
  else .arr []

/-- The query object of `read`: `{ tableName }`, then
`query[k] = String(v)` for every filter entry. -/
def readQuery (tableName : String) (filters : Option (List (String × Json))) :
    List (String × Json) :=
  match filters with
  | some fs =>
    fs.foldl (fun q kv => setField q kv.1 (.str (jsToString kv.2)))
      [("tableName", .str tableName)]
  | none => [("tableName", .str tableName)]

/-- `read(tableName, filters?)`. -/
def read (c : ClientConfig) (st : TokenState) (tableName : String)
    (filters : Option (List (String × Json))) (o : Oracle) : RunResult Json :=
  match makeRequest c st .database .GET "read"
    { query := some (readQuery tableName filters) } o with
  | ⟨.ok res, st1, ev1, tr1, o1⟩ => ⟨.ok (readShape res), st1, ev1, tr1, o1⟩
  | ⟨.err k m, st1, ev1, tr1, o1⟩ => ⟨.err k m, st1, ev1, tr1, o1⟩
  | ⟨.hang, st1, ev1, tr1, o1⟩ => ⟨.hang, st1, ev1, tr1, o1⟩

/-- The rest-pattern `const { _id, id: _, ...updates } = data ?? {}`:
every field other than `_id` and `id`, order and values untouched. -/
def stripIdFields (patch : List (String × Json)) : List (String × Json) :=
  patch.filter (fun kv => kv.1 ≠ "_id" ∧ kv.1 ≠ "id")

/-- `update(tableName, id, data)`: PUT `update` with
`{tableName, idColumn: "_id", idValue: id, updates}`. -/
def update (c : ClientConfig) (st : TokenState) (tableName : String)
    (id : Json) (data : List (String × Json)) (o : Oracle) : RunResult Json :=
  makeRequest c st .database .PUT "update"
    { body := some (.obj [("tableName", .str tableName),
        ("idColumn", .str "_id"), ("idValue", id),
        ("updates", .obj (stripIdFields data))]) } o

/-- `delete(tableName, id)`. -/
def deleteRecord (c : ClientConfig) (st : TokenState) (tableName : String)
    (id : Json) (o : Oracle) : RunResult Json :=
  makeRequest c st .database .DELETE "delete"
    { body := some (.obj [("tableName", .str tableName),
        ("idColumn", .str "_id"), ("idValue", id)]) } o

-- ============================
--  Convenience helpers
-- ============================

/-- `getAll(tableName)`. -/
def getAll (c : ClientConfig) (st : TokenState) (tableName : String)
    (o : Oracle) : RunResult Json :=
  read c st tableName none o

/-- `getById(tableName, id)`: `rows.length ? rows[0] : null`. -/
def getById (c : ClientConfig) (st : TokenState) (tableName : String)
    (id : Json) (o : Oracle) : RunResult Json :=
  match read c st tableName (some [("_id", id)]) o with
  | ⟨.ok rows, st1, ev1, tr1, o1⟩ =>
    if optTruthy (jsLength rows) then
      ⟨.ok ((jsIndex rows 0).getD .null), st1, ev1, tr1, o1⟩
    else ⟨.ok .null, st1, ev1, tr1, o1⟩
  | ⟨.err k m, st1, ev1, tr1, o1⟩ => ⟨.err k m, st1, ev1, tr1, o1⟩
  | ⟨.hang, st1, ev1, tr1, o1⟩ => ⟨.hang, st1, ev1, tr1, o1⟩

/-- `getWhere(tableName, column, value)`. -/
def getWhere (c : ClientConfig) (st : TokenState) (tableName column : String)
    (value : Json) (o : Oracle) : RunResult Json :=
  read c st tableName (some [(column, value)]) o

-- ============================
--  Helper lemmas: headers
-- ============================

theorem getHeader_append (h₁ h₂ : Headers) (k : String) :
    getHeader (h₁ ++ h₂) k = (getHeader h₁ k).or (getHeader h₂ k) := by
  induction h₁ with
  | nil => simp [getHeader]
  | cons a t ih =>
    obtain ⟨ak, av⟩ := a
    by_cases hk : ak = k
    · simp [getHeader, hk]
    · simp [getHeader, hk, ih]

theorem getHeader_none_of_not_any (h : Headers) (k : String)
    (ha : h.any (fun kv => kv.1 = k) = false) : getHeader h k = none := by
  induction h with
  | nil => rfl
  | cons a t ih =>
    obtain ⟨ak, av⟩ := a
    simp only [List.any_cons, Bool.or_eq_false_iff] at ha
    obtain ⟨ha1, ha2⟩ := ha
    have hk : ¬ ak = k := by simpa using ha1
    simp [getHeader, hk, ih ha2]

theorem getHeader_cons (k' v : String) (rest : Headers) (k : String) :
    getHeader ((k', v) :: rest) k
      = if k' = k then some v else getHeader rest k := rfl

theorem mapSet_cons (k v ak av : String) (t : Headers) :
    (((ak, av) :: t).map (fun kv => if kv.1 = k then (k, v) else kv))
      = (if ak = k then (k, v) else (ak, av))
          :: (t.map (fun kv => if kv.1 = k then (k, v) else kv)) := rfl

theorem getHeader_map_set (h : Headers) (k v : String)
    (ha : h.any (fun kv => kv.1 = k) = true) :
    getHeader (h.map (fun kv => if kv.1 = k then (k, v) else kv)) k
      = some v := by
  induction h with
  | nil => simp at ha
  | cons a t ih =>
    obtain ⟨ak, av⟩ := a
    rw [mapSet_cons]
    by_cases hk : ak = k
    · rw [if_pos hk, getHeader_cons, if_pos rfl]
    · have ha' : t.any (fun kv => kv.1 = k) = true := by
        simp only [List.any_cons] at ha
        simpa [hk] using ha
      rw [if_neg hk, getHeader_cons, if_neg hk]
      exact ih ha'

theorem getHeader_map_set_other (h : Headers) (k v k' : String)
    (hne : k' ≠ k) :
    getHeader (h.map (fun kv => if kv.1 = k then (k, v) else kv)) k'
      = getHeader h k' := by
  have hkk' : ¬ k = k' := fun hc => hne hc.symm
  induction h with
  | nil => rfl
  | cons a t ih =>
    obtain ⟨ak, av⟩ := a
    rw [mapSet_cons]
    by_cases hk : ak = k
    · rw [if_pos hk, getHeader_cons, if_neg hkk', getHeader_cons, ih]
      rw [hk, if_neg hkk']
    · rw [if_neg hk, getHeader_cons, getHeader_cons, ih]

theorem getHeader_setHeader_self (h : Headers) (k v : String) :
    getHeader (setHeader h k v) k = some v := by
  unfold setHeader
  split
  · exact getHeader_map_set h k v (by assumption)
  · rename_i ha
    have ha' : h.any (fun kv => kv.1 = k) = false := by
      revert ha
      cases h.any (fun kv => kv.1 = k) <;> simp
    rw [getHeader_append, getHeader_none_of_not_any h k ha']
    simp [getHeader]

theorem getHeader_setHeader_other (h : Headers) (k v k' : String)
    (hne : k' ≠ k) : getHeader (setHeader h k v) k' = getHeader h k' := by
  have hkk' : ¬ k = k' := fun hc => hne hc.symm
  unfold setHeader
  split
  · exact getHeader_map_set_other h k v k' hne
  · rw [getHeader_append]
    have h1 : getHeader [(k, v)] k' = none := by
      simp [getHeader, hkk']
    rw [h1]
    cases getHeader h k' <;> simp

theorem getHeader_applyInterceptor_contentType (tok : Option Json)
    (h : Headers) :
    getHeader (applyInterceptor tok h) "Content-Type"
      = some "application/json" := by
  unfold applyInterceptor
  split
  · simp only [getHeader_setHeader_other _ _ _ _
      (show ("Content-Type" : String) ≠ "Authorization" by decide),
      getHeader_setHeader_self]
  · simp only [getHeader_setHeader_self]

theorem getHeader_applyInterceptor_auth (tok : Option Json) (h : Headers) :
    getHeader (applyInterceptor tok h) "Authorization"
      = if optTruthy tok then
          some ("Bearer " ++ jsToString (tok.getD .null))
        else getHeader h "Authorization" := by
  unfold applyInterceptor
  split <;> rename_i htok
  · simp only [if_pos htok, getHeader_setHeader_self]
  · simp only [if_neg htok, getHeader_setHeader_other _ _ _ _
      (show ("Authorization" : String) ≠ "Content-Type" by decide)]

-- ============================
--  Helper lemmas: pipeline characterizations
-- ============================

theorem optTruthy_isSome (t : Option Json) (h : optTruthy t = true) :
    t.isSome = true := by
  cases t <;> simp_all [optTruthy]

theorem truthy_of_shouldRefresh {st : TokenState} {b : Bool} {r : Response}
    (h : shouldRefresh st b r = true) : optTruthy st.refreshToken = true := by
  simp only [shouldRefresh, Bool.and_eq_true] at h
  exact h.2

theorem status_of_shouldRefresh {st : TokenState} {b : Bool} {r : Response}
    (h : shouldRefresh st b r = true) : r.status = 401 := by
  simp only [shouldRefresh, Bool.and_eq_true, beq_iff_eq] at h
  exact h.1.1

theorem is2xx_of_shouldRefresh {st : TokenState} {b : Bool} {r : Response}
    (h : shouldRefresh st b r = true) : is2xx r = false := by
  have h401 := status_of_shouldRefresh h
  simp [is2xx, h401]

theorem shouldRefresh_isAuth (st : TokenState) (r : Response) :
    shouldRefresh st true r = false := by
  simp [shouldRefresh]

theorem shouldRefresh_of_2xx {r : Response} (h2 : is2xx r = true)
    (st : TokenState) (b : Bool) : shouldRefresh st b r = false := by
  simp only [is2xx, decide_eq_true_eq] at h2
  have hne : r.status ≠ 401 := by omega
  simp [shouldRefresh, hne]

theorem requestNoRefresh_nil (c : ClientConfig) (st : TokenState)
    (kind : Kind) (method : Method) (endpoint : String) (opts : ReqOpts) :
    requestNoRefresh c st kind method endpoint opts []
      = ⟨.hang, st, [], [sendOf st (buildCfg c kind method endpoint opts)],
          []⟩ := rfl

theorem requestNoRefresh_cons (c : ClientConfig) (st : TokenState)
    (kind : Kind) (method : Method) (endpoint : String) (opts : ReqOpts)
    (r : Response) (o : Oracle) :
    requestNoRefresh c st kind method endpoint opts (r :: o)
      = if is2xx r then
          ⟨.ok r.data, st, [],
            [sendOf st (buildCfg c kind method endpoint opts)], o⟩
        else
          ⟨.err .apiRequestFailed (extractMessage r), st, [],
            [sendOf st (buildCfg c kind method endpoint opts)], o⟩ := rfl

theorem requestNoRefresh_trace (c : ClientConfig) (st : TokenState)
    (kind : Kind) (method : Method) (endpoint : String) (opts : ReqOpts)
    (o : Oracle) :
    (requestNoRefresh c st kind method endpoint opts o).trace
      = [sendOf st (buildCfg c kind method endpoint opts)] := by
  cases o with
  | nil => rfl
  | cons r rest =>
    rw [requestNoRefresh_cons]
    split <;> rfl

theorem requestNoRefresh_state (c : ClientConfig) (st : TokenState)
    (kind : Kind) (method : Method) (endpoint : String) (opts : ReqOpts)
    (o : Oracle) :
    (requestNoRefresh c st kind method endpoint opts o).state = st := by
  cases o with
  | nil => rfl
  | cons r rest =>
    rw [requestNoRefresh_cons]
    split <;> rfl

theorem requestNoRefresh_events (c : ClientConfig) (st : TokenState)
    (kind : Kind) (method : Method) (endpoint : String) (opts : ReqOpts)
    (o : Oracle) :
    (requestNoRefresh c st kind method endpoint opts o).events = [] := by
  cases o with
  | nil => rfl
  | cons r rest =>
    rw [requestNoRefresh_cons]
    split <;> rfl

theorem refreshAccessToken_falsy (c : ClientConfig) (st : TokenState)
    (o : Oracle) (h : optTruthy st.refreshToken = false) :
    refreshAccessToken c st o
      = ⟨.err .noRefreshToken "No hay refresh token disponible.",
          st, [], [], o⟩ := by
  simp [refreshAccessToken, h]

theorem refreshAccessToken_trace_of_truthy (c : ClientConfig)
    (st : TokenState) (o : Oracle) (h : optTruthy st.refreshToken = true) :
    (refreshAccessToken c st o).trace
      = [sendOf st (buildCfg c .auth .POST "refresh-token"
          (refreshOpts st))] := by
  rcases hr : requestNoRefresh c st .auth .POST "refresh-token"
    (refreshOpts st) o with ⟨oc, st1, ev1, tr1, o1⟩
  have ht := requestNoRefresh_trace c st .auth .POST "refresh-token"
    (refreshOpts st) o
  rw [hr] at ht
  have ht' : tr1 = [sendOf st (buildCfg c .auth .POST "refresh-token"
      (refreshOpts st))] := ht
  cases oc with
  | ok data =>
    simp [refreshAccessToken, h, hr, updateAccessToken, apply_ite, ht']
  | err k m => simp [refreshAccessToken, h, hr, ht']
  | hang => simp [refreshAccessToken, h, hr, ht']

theorem refreshAccessToken_refreshToken_unchanged (c : ClientConfig)
    (st : TokenState) (o : Oracle) :
    (refreshAccessToken c st o).state.refreshToken = st.refreshToken := by
  by_cases h : optTruthy st.refreshToken
  · rcases hr : requestNoRefresh c st .auth .POST "refresh-token"
      (refreshOpts st) o with ⟨oc, st1, ev1, tr1, o1⟩
    have hs := requestNoRefresh_state c st .auth .POST "refresh-token"
      (refreshOpts st) o
    rw [hr] at hs
    have hs' : st1 = st := hs
    cases oc with
    | ok data =>
      simp [refreshAccessToken, h, hr, updateAccessToken, apply_ite, hs']
    | err k m => simp [refreshAccessToken, h, hr, hs']
    | hang => simp [refreshAccessToken, h, hr, hs']
  · rw [refreshAccessToken_falsy c st o (by simpa using h)]

theorem refreshAccessToken_state_cases (c : ClientConfig) (st : TokenState)
    (o : Oracle) :
    (refreshAccessToken c st o).state = st ∨
      (optTruthy st.refreshToken = true ∧
        ∃ v, (refreshAccessToken c st o).state
          = { accessToken := some v, refreshToken := st.refreshToken }) := by
  by_cases h : optTruthy st.refreshToken
  · rcases hr : requestNoRefresh c st .auth .POST "refresh-token"
      (refreshOpts st) o with ⟨oc, st1, ev1, tr1, o1⟩
    have hs := requestNoRefresh_state c st .auth .POST "refresh-token"
      (refreshOpts st) o
    rw [hr] at hs
    have hs' : st1 = st := hs
    cases oc with
    | ok data =>
      by_cases hacc : optTruthy (getField data "accessToken")
      · cases hv : getField data "accessToken" with
        | none => rw [hv] at hacc; simp [optTruthy] at hacc
        | some v =>
          refine Or.inr ⟨h, v, ?_⟩
          have hacc' : optTruthy (some v) = true := hv ▸ hacc
          simp [refreshAccessToken, h, hr, hacc', hv, updateAccessToken, hs']
      · refine Or.inl ?_
        simp [refreshAccessToken, h, hr, hacc, hs']
    | err k m => exact Or.inl (by simp [refreshAccessToken, h, hr, hs'])
    | hang => exact Or.inl (by simp [refreshAccessToken, h, hr, hs'])
  · rw [refreshAccessToken_falsy c st o (by simpa using h)]
    exact Or.inl rfl

theorem refreshAccessToken_state_of_err (c : ClientConfig) (st : TokenState)
    (o : Oracle) (k : ErrKind) (m : String)
    (h : (refreshAccessToken c st o).outcome = .err k m) :
    (refreshAccessToken c st o).state = st := by
  by_cases hg : optTruthy st.refreshToken
  · rcases hr : requestNoRefresh c st .auth .POST "refresh-token"
      (refreshOpts st) o with ⟨oc, st1, ev1, tr1, o1⟩
    have hs := requestNoRefresh_state c st .auth .POST "refresh-token"
      (refreshOpts st) o
    rw [hr] at hs
    have hs' : st1 = st := hs
    cases oc with
    | ok data =>
      by_cases hacc : optTruthy (getField data "accessToken")
      · exfalso
        simp [refreshAccessToken, hg, hr, hacc, updateAccessToken] at h
      · simp [refreshAccessToken, hg, hr, hacc, hs']
    | err k' m' => simp [refreshAccessToken, hg, hr, hs']
    | hang => simp [refreshAccessToken, hg, hr, hs']
  · rw [refreshAccessToken_falsy c st o (by simpa using hg)]

theorem makeRequest_nil (c : ClientConfig) (st : TokenState) (kind : Kind)
    (method : Method) (endpoint : String) (opts : ReqOpts) :
    makeRequest c st kind method endpoint opts []
      = ⟨.hang, st, [], [sendOf st (buildCfg c kind method endpoint opts)],
          []⟩ := rfl

theorem makeRequest_2xx (c : ClientConfig) (st : TokenState) (kind : Kind)
    (method : Method) (endpoint : String) (opts : ReqOpts) (r : Response)
    (o' : Oracle) (h2 : is2xx r = true) :
    makeRequest c st kind method endpoint opts (r :: o')
      = ⟨.ok r.data, st, [],
          [sendOf st (buildCfg c kind method endpoint opts)], o'⟩ := by
  simp [makeRequest, httpRequest, h2]

theorem makeRequest_err_noRefresh (c : ClientConfig) (st : TokenState)
    (kind : Kind) (method : Method) (endpoint : String) (opts : ReqOpts)
    (r : Response) (o' : Oracle) (h2 : is2xx r = false)
    (hs : shouldRefresh st opts.isAuthRequest r = false) :
    makeRequest c st kind method endpoint opts (r :: o')
      = ⟨.err .apiRequestFailed (extractMessage r), st, [],
          [sendOf st (buildCfg c kind method endpoint opts)], o'⟩ := by
  simp [makeRequest, httpRequest, h2, hs]

theorem makeRequest_isAuth (c : ClientConfig) (st : TokenState) (kind : Kind)
    (method : Method) (endpoint : String) (opts : ReqOpts) (o : Oracle)
    (hauth : opts.isAuthRequest = true) :
    (makeRequest c st kind method endpoint opts o).state = st ∧
      (makeRequest c st kind method endpoint opts o).events = [] := by
  cases o with
  | nil => exact ⟨rfl, rfl⟩
  | cons r o' =>
    by_cases h2 : is2xx r
    · rw [makeRequest_2xx c st kind method endpoint opts r o' h2]
      exact ⟨rfl, rfl⟩
    · have hs : shouldRefresh st opts.isAuthRequest r = false := by
        rw [hauth]
        exact shouldRefresh_isAuth st r
      rw [makeRequest_err_noRefresh c st kind method endpoint opts r o'
        (by simpa using h2) hs]
      exact ⟨rfl, rfl⟩

theorem makeRequest_state_cases (c : ClientConfig) (st : TokenState)
    (kind : Kind) (method : Method) (endpoint : String) (opts : ReqOpts)
    (o : Oracle) :
    (makeRequest c st kind method endpoint opts o).state = st ∨
      ∃ o', (makeRequest c st kind method endpoint opts o).state
        = (refreshAccessToken c st o').state := by
  cases o with
  | nil => exact Or.inl rfl
  | cons r o' =>
    by_cases h2 : is2xx r
    · rw [makeRequest_2xx c st kind method endpoint opts r o' h2]
      exact Or.inl rfl
    · by_cases hsr : shouldRefresh st opts.isAuthRequest r
      · refine Or.inr ⟨o', ?_⟩
        rcases hr : refreshAccessToken c st o' with ⟨oc, st1, ev1, tr1, o1⟩
        cases oc with
        | ok u =>
          cases o1 with
          | nil => simp [makeRequest, httpRequest, h2, hsr, hr]
          | cons r2 o2 =>
            simp [makeRequest, httpRequest, h2, hsr, hr, apply_ite]
        | err k m => simp [makeRequest, httpRequest, h2, hsr, hr]
        | hang => simp [makeRequest, httpRequest, h2, hsr, hr]
      · rw [makeRequest_err_noRefresh c st kind method endpoint opts r o'
          (by simpa using h2) (by simpa using hsr)]
        exact Or.inl rfl

theorem makeRequest_trace_head (c : ClientConfig) (st : TokenState)
    (kind : Kind) (method : Method) (endpoint : String) (opts : ReqOpts)
    (o : Oracle) :
    (makeRequest c st kind method endpoint opts o).trace.head?
      = some (sendOf st (buildCfg c kind method endpoint opts)) := by
  cases o with
  | nil => rfl
  | cons r o' =>
    by_cases h2 : is2xx r
    · rw [makeRequest_2xx c st kind method endpoint opts r o' h2]
      rfl
    · by_cases hsr : shouldRefresh st opts.isAuthRequest r
      · rcases hr : refreshAccessToken c st o' with ⟨oc, st1, ev1, tr1, o1⟩
        cases oc with
        | ok u =>
          cases o1 with
          | nil => simp [makeRequest, httpRequest, h2, hsr, hr]
          | cons r2 o2 =>
            simp [makeRequest, httpRequest, h2, hsr, hr, apply_ite]
        | err k m => simp [makeRequest, httpRequest, h2, hsr, hr]
        | hang => simp [makeRequest, httpRequest, h2, hsr, hr]
      · rw [makeRequest_err_noRefresh c st kind method endpoint opts r o'
          (by simpa using h2) (by simpa using hsr)]
        rfl

theorem makeRequest_trace_refresh (c : ClientConfig) (st : TokenState)
    (kind : Kind) (method : Method) (endpoint : String) (opts : ReqOpts)
    (r : Response) (o' : Oracle)
    (hsr : shouldRefresh st opts.isAuthRequest r = true) :
    (makeRequest c st kind method endpoint opts (r :: o')).trace
      = [sendOf st (buildCfg c kind method endpoint opts),
         sendOf st (buildCfg c .auth .POST "refresh-token" (refreshOpts st))]
        ++ (match (refreshAccessToken c st o').outcome with
            | .ok _ => [sendOf (refreshAccessToken c st o').state
                (buildCfg c kind method endpoint opts)]
            | .err _ _ => []
            | .hang => []) := by
  have h2 := is2xx_of_shouldRefresh hsr
  have htruthy := truthy_of_shouldRefresh hsr
  have htr := refreshAccessToken_trace_of_truthy c st o' htruthy
  rcases hr : refreshAccessToken c st o' with ⟨oc, st1, ev1, tr1, o1⟩
  rw [hr] at htr
  have htr' : tr1 = [sendOf st (buildCfg c .auth .POST "refresh-token"
      (refreshOpts st))] := htr
  cases oc with
  | ok u =>
    cases o1 with
    | nil => simp [makeRequest, httpRequest, h2, hsr, hr, htr']
    | cons r2 o2 =>
      cases h22 : is2xx r2 <;>
        simp [makeRequest, httpRequest, h2, hsr, hr, htr', h22]
  | err k m => simp [makeRequest, httpRequest, h2, hsr, hr, htr']
  | hang => simp [makeRequest, httpRequest, h2, hsr, hr, htr']

-- ============================
--  Shared concrete instances (used by witnesses)
-- ============================

/-- A concrete effective configuration with no configured headers. -/
def demoConfig : ClientConfig where
  baseURL := "https://roble.uninorte.edu.co/api"
  codeUrl := "demo"
  authHeaders := none
  dataHeaders := none
  timeoutMs := 30000
  pathBuilder := defaultPathBuilder

/-- A configuration whose database headers carry a caller-supplied
`Authorization` value. -/
def authHeaderConfig : ClientConfig where
  baseURL := "https://roble.uninorte.edu.co/api"
  codeUrl := "demo"
  authHeaders := none
  dataHeaders := some [("Authorization", "ApiKey secret")]
  timeoutMs := 30000
  pathBuilder := defaultPathBuilder

-- ============================
--  Claims
-- ============================

/-- C10: on every request the pipeline sends (the original request,
the refresh call, and the retry alike), the transmitted `Content-Type`
header is exactly `application/json`: the request interceptor
overwrites it after header merging, so a different `Content-Type`
supplied via `authHeaders`, `dataHeaders` or `extraHeaders` is never
transmitted. -/
theorem contentType_always_json (c : ClientConfig) (st : TokenState)
    (kind : Kind) (method : Method) (endpoint : String) (opts : ReqOpts)
    (o : Oracle) :
    ∀ sent ∈ (makeRequest c st kind method endpoint opts o).trace,
      getHeader sent.headers "Content-Type" = some "application/json" := by
  intro sent hmem
  cases o with
  | nil =>
    rw [makeRequest_nil] at hmem
    simp only [List.mem_singleton] at hmem
    rw [hmem]
    exact getHeader_applyInterceptor_contentType _ _
  | cons r o' =>
    by_cases h2 : is2xx r
    · rw [makeRequest_2xx c st kind method endpoint opts r o' h2] at hmem
      simp only [List.mem_singleton] at hmem
      rw [hmem]
      exact getHeader_applyInterceptor_contentType _ _
    · by_cases hsr : shouldRefresh st opts.isAuthRequest r
      · rw [makeRequest_trace_refresh c st kind method endpoint opts r o'
          hsr] at hmem
        rcases List.mem_append.mp hmem with hm | hm
        · simp only [List.mem_cons, List.mem_singleton,
            List.not_mem_nil, or_false] at hm
          rcases hm with hm | hm <;>
            (rw [hm]; exact getHeader_applyInterceptor_contentType _ _)
        · cases hoc : (refreshAccessToken c st o').outcome with
          | ok u =>
            rw [hoc] at hm
            simp only [List.mem_singleton] at hm
            rw [hm]
            exact getHeader_applyInterceptor_contentType _ _
          | err k m =>
            rw [hoc] at hm
            exact absurd hm (List.not_mem_nil sent)
          | hang =>
            rw [hoc] at hm
            exact absurd hm (List.not_mem_nil sent)
      · rw [makeRequest_err_noRefresh c st kind method endpoint opts r o'
          (by simpa using h2) (by simpa using hsr)] at hmem
        simp only [List.mem_singleton] at hmem
        rw [hmem]
        exact getHeader_applyInterceptor_contentType _ _

/-- C10 witness: a concrete 2xx GET with no configured headers
transmits `Content-Type: application/json`. -/
theorem contentType_always_json_witness :
    getHeader (sendOf { accessToken := none, refreshToken := none }
      (buildCfg demoConfig .database .GET "read" {})).headers "Content-Type"
      = some "application/json" := by
  refine contentType_always_json demoConfig
    { accessToken := none, refreshToken := none } .database .GET "read" {}
    [⟨200, .arr []⟩] _ ?_
  rw [makeRequest_2xx demoConfig { accessToken := none, refreshToken := none }
    .database .GET "read" {} ⟨200, .arr []⟩ [] (by rfl)]
  exact List.mem_singleton.mpr rfl

/-- C2 counterexample: with no access token stored but a caller-supplied
`Authorization` value in `dataHeaders`, the transmitted request DOES
carry an `Authorization` header — refuting "the `Authorization` header
is present if and only if an access token is currently stored". -/
theorem bearer_iff_stored_counterexample :
    ((makeRequest authHeaderConfig
        { accessToken := none, refreshToken := none }
        .database .GET "read" {} [⟨200, .arr []⟩]).trace.head?.map
      (fun s => getHeader s.headers "Authorization"))
      = some (some "ApiKey secret")
    ∧ ({ accessToken := none, refreshToken := none } : TokenState).accessToken
        = none := ⟨rfl, rfl⟩

/-- C2 (amended): when a truthy access token is stored the
`Authorization` header of every transmitted request is exactly
`Bearer <currentAccessToken>`, applied last by the interceptor so that
it overrides any caller-supplied `Authorization` (from `authHeaders`,
`dataHeaders` or `extraHeaders`); when no truthy access token is
stored, the interceptor adds no `Authorization` header, so the header
is present exactly when the merged caller headers contain one. -/
theorem bearer_header_amended (tok : Option Json) (h : Headers)
    (c : ClientConfig) (st : TokenState) (kind : Kind) (method : Method)
    (endpoint : String) (opts : ReqOpts) (o : Oracle) :
    (optTruthy tok = true →
      getHeader (applyInterceptor tok h) "Authorization"
        = some ("Bearer " ++ jsToString (tok.getD .null))) ∧
    (optTruthy tok = false →
      getHeader (applyInterceptor tok h) "Authorization"
        = getHeader h "Authorization") ∧
    ((makeRequest c st kind method endpoint opts o).trace.head?.map
        (fun s => getHeader s.headers "Authorization"))
      = some (if optTruthy st.accessToken then
            some ("Bearer " ++ jsToString (st.accessToken.getD .null))
          else
            getHeader (buildCfg c kind method endpoint opts).headers
              "Authorization") := by
  refine ⟨?_, ?_, ?_⟩
  · intro ht
    rw [getHeader_applyInterceptor_auth, if_pos ht]
  · intro hf
    rw [getHeader_applyInterceptor_auth, if_neg (by simp [hf])]
  · rw [makeRequest_trace_head]
    simp [sendOf, getHeader_applyInterceptor_auth]

/-- C2 amended witness: the overriding and pass-through behaviors at
concrete inputs. -/
theorem bearer_header_amended_witness :
    getHeader (applyInterceptor (some (.str "tok7"))
        [("Authorization", "caller")]) "Authorization"
      = some ("Bearer " ++ jsToString ((some (Json.str "tok7")).getD .null))
    ∧ getHeader (applyInterceptor none [("Authorization", "caller")])
        "Authorization"
      = getHeader [("Authorization", "caller")] "Authorization" :=
  ⟨(bearer_header_amended (some (.str "tok7")) [("Authorization", "caller")]
      demoConfig { accessToken := none, refreshToken := none }
      .auth .GET "login" {} []).1 (by rfl),
   (bearer_header_amended none [("Authorization", "caller")]
      demoConfig { accessToken := none, refreshToken := none }
      .auth .GET "login" {} []).2.1 (by rfl)⟩

/-- C8: every `update(tableName, id, patch)` call transmits (as the
first — and, by C1, only ever identically resent — request of its
pipeline run) exactly the body `{tableName, idColumn: "_id",
idValue: id, updates}` where `updates` is `patch` with its `_id` and
`id` fields removed and every other field untouched, via PUT. -/
theorem update_transmits_stripped_patch (c : ClientConfig)
    (st : TokenState) (tableName : String) (id : Json)
    (patch : List (String × Json)) (o : Oracle) :
    ((update c st tableName id patch o).trace.head?.map
        (fun s => s.cfg.data))
      = some (some (.obj [("tableName", .str tableName),
          ("idColumn", .str "_id"), ("idValue", id),
          ("updates", .obj
            (patch.filter (fun kv => kv.1 ≠ "_id" ∧ kv.1 ≠ "id")))]))
    ∧ ((update c st tableName id patch o).trace.head?.map
        (fun s => s.cfg.method)) = some .PUT := by
  constructor
  · rw [update, makeRequest_trace_head]
    simp [sendOf, buildCfg, stripIdFields, jsTruthy]
  · rw [update, makeRequest_trace_head]
    simp [sendOf, buildCfg]

/-- C9: on any 2xx response, `read` returns the response itself when it
is an array, else its truthy `data` field, else an empty array — and
never fails. -/
theorem read_shape_handling (c : ClientConfig) (st : TokenState)
    (tableName : String) (filters : Option (List (String × Json)))
    (r₀ : Response) (o' : Oracle) (h2 : is2xx r₀ = true) :
    (read c st tableName filters (r₀ :: o')).outcome
      = .ok (readShape r₀.data) ∧
    (isArray r₀.data = true → readShape r₀.data = r₀.data) ∧
    (∀ d, isArray r₀.data = false → getField r₀.data "data" = some d →
      jsTruthy d = true → readShape r₀.data = d) ∧
    (isArray r₀.data = false →
      optTruthy (getField r₀.data "data") = false →
      readShape r₀.data = .arr []) := by
  refine ⟨?_, ?_, ?_, ?_⟩
  · have hm2 := makeRequest_2xx c st .database .GET "read"
      { query := some (readQuery tableName filters) } r₀ o' h2
    simp [read, hm2]
  · intro hA
    simp [readShape, hA]
  · intro d hA hd htd
    simp [readShape, hA, hd, optTruthy, htd]
  · intro hA hd
    simp [readShape, hA, hd]

/-- C9 witness: a `{data: [...]}`-shaped 2xx response is unwrapped. -/
theorem read_shape_handling_witness :
    (read demoConfig { accessToken := none, refreshToken := none } "t" none
        [⟨200, .obj [("data", .arr [.num 1])]⟩]).outcome
      = .ok (readShape (Json.obj [("data", .arr [.num 1])]))
    ∧ readShape (Json.obj [("data", .arr [.num 1])]) = .arr [.num 1] :=
  ⟨(read_shape_handling demoConfig
      { accessToken := none, refreshToken := none } "t" none
      ⟨200, .obj [("data", .arr [.num 1])]⟩ [] (by rfl)).1,
   (read_shape_handling demoConfig
      { accessToken := none, refreshToken := none } "t" none
      ⟨200, .obj [("data", .arr [.num 1])]⟩ [] (by rfl)).2.2.1
      (.arr [.num 1]) (by rfl) (by rfl) (by rfl)⟩

/-- C1: a refresh is attempted exactly when the response status is 401,
`isAuthRequest` is false and a (truthy) refresh token is stored — the
guard `shouldRefresh`; when the guard is false the pipeline sends
exactly the one original request; when it holds the second request
sent is exactly the one refresh call; and when the refresh succeeds
the pipeline sends exactly three requests — the original, the refresh,
and one resend of the identical original cfg — regardless of the
retry's outcome. -/
theorem refresh_retry_policy (c : ClientConfig) (st : TokenState)
    (kind : Kind) (method : Method) (endpoint : String) (opts : ReqOpts)
    (r₀ : Response) (o' : Oracle) :
    (shouldRefresh st opts.isAuthRequest r₀ = false →
      (makeRequest c st kind method endpoint opts (r₀ :: o')).trace
        = [sendOf st (buildCfg c kind method endpoint opts)]) ∧
    (shouldRefresh st opts.isAuthRequest r₀ = true →
      ((makeRequest c st kind method endpoint opts (r₀ :: o')).trace).take 2
        = [sendOf st (buildCfg c kind method endpoint opts),
           sendOf st (buildCfg c .auth .POST "refresh-token"
             (refreshOpts st))]) ∧
    (shouldRefresh st opts.isAuthRequest r₀ = true →
      (refreshAccessToken c st o').outcome = .ok () →
      (makeRequest c st kind method endpoint opts (r₀ :: o')).trace
        = [sendOf st (buildCfg c kind method endpoint opts),
           sendOf st (buildCfg c .auth .POST "refresh-token"
             (refreshOpts st)),
           sendOf (refreshAccessToken c st o').state
             (buildCfg c kind method endpoint opts)]) := by
  refine ⟨?_, ?_, ?_⟩
  · intro hns
    by_cases h2 : is2xx r₀
    · rw [makeRequest_2xx c st kind method endpoint opts r₀ o' h2]
    · rw [makeRequest_err_noRefresh c st kind method endpoint opts r₀ o'
        (by simpa using h2) hns]
  · intro hsr
    rw [makeRequest_trace_refresh c st kind method endpoint opts r₀ o' hsr]
    cases hoc : (refreshAccessToken c st o').outcome <;> rfl
  · intro hsr hok
    rw [makeRequest_trace_refresh c st kind method endpoint opts r₀ o' hsr,
      hok]
    rfl

/-- A concrete token state with both tokens stored. -/
def stOldRt : TokenState := ⟨some (.str "old"), some (.str "rt")⟩

/-- C1 witness: a 401 on a data request with stored tokens, a
successful refresh and a retried request — exactly three sends. -/
theorem refresh_retry_policy_witness :
    (makeRequest demoConfig stOldRt .database .GET "read" {}
        [⟨401, .null⟩, ⟨200, .obj [("accessToken", .str "new")]⟩,
         ⟨503, .null⟩]).trace
      = [sendOf stOldRt (buildCfg demoConfig .database .GET "read" {}),
         sendOf stOldRt (buildCfg demoConfig .auth .POST "refresh-token"
           (refreshOpts stOldRt)),
         sendOf (refreshAccessToken demoConfig stOldRt
             [⟨200, .obj [("accessToken", .str "new")]⟩, ⟨503, .null⟩]).state
           (buildCfg demoConfig .database .GET "read" {})] :=
  (refresh_retry_policy demoConfig stOldRt .database .GET "read" {}
    ⟨401, .null⟩
    [⟨200, .obj [("accessToken", .str "new")]⟩, ⟨503, .null⟩]).2.2
    (by rfl) (by rfl)

/-- C3: the pipeline's outcome is of kind `AuthRefreshFailed` exactly
when the 401-refresh guard held and the refresh routine itself failed;
in that case the message wraps the refresh failure's message; and a
failed retry is instead reported as `ApiRequestFailed` with the
retry's status-derived message. -/
theorem authRefreshFailed_characterization (c : ClientConfig)
    (st : TokenState) (kind : Kind) (method : Method) (endpoint : String)
    (opts : ReqOpts) (r₀ : Response) (o' : Oracle) :
    ((makeRequest c st kind method endpoint opts
        (r₀ :: o')).outcome.kindIs .authRefreshFailed
      = (shouldRefresh st opts.isAuthRequest r₀
          && (refreshAccessToken c st o').outcome.isErr)) ∧
    (∀ k m, shouldRefresh st opts.isAuthRequest r₀ = true →
      (refreshAccessToken c st o').outcome = .err k m →
      (makeRequest c st kind method endpoint opts (r₀ :: o')).outcome
        = .err .authRefreshFailed
            ("Token expirado y no se pudo refrescar: " ++ m)) ∧
    (∀ r₂ o₂, shouldRefresh st opts.isAuthRequest r₀ = true →
      (refreshAccessToken c st o').outcome = .ok () →
      (refreshAccessToken c st o').oracle = r₂ :: o₂ →
      is2xx r₂ = false →
      (makeRequest c st kind method endpoint opts (r₀ :: o')).outcome
        = .err .apiRequestFailed (extractMessage r₂)) := by
  refine ⟨?_, ?_, ?_⟩
  · by_cases h2 : is2xx r₀
    · rw [makeRequest_2xx c st kind method endpoint opts r₀ o' h2,
        shouldRefresh_of_2xx h2 st opts.isAuthRequest]
      rfl
    · by_cases hsr : shouldRefresh st opts.isAuthRequest r₀
      · rcases hr : refreshAccessToken c st o' with ⟨oc, st1, ev1, tr1, o1⟩
        cases oc with
        | ok u =>
          cases o1 with
          | nil =>
            simp [makeRequest, httpRequest, h2, hsr, hr, Outcome.kindIs,
              Outcome.isErr]
          | cons r2 o2 =>
            cases h22 : is2xx r2 <;>
              simp [makeRequest, httpRequest, h2, hsr, hr, h22,
                Outcome.kindIs, Outcome.isErr]
        | err k m =>
          simp [makeRequest, httpRequest, h2, hsr, hr, Outcome.kindIs,
            Outcome.isErr]
        | hang =>
          simp [makeRequest, httpRequest, h2, hsr, hr, Outcome.kindIs,
            Outcome.isErr]
      · rw [makeRequest_err_noRefresh c st kind method endpoint opts r₀ o'
          (by simpa using h2) (by simpa using hsr)]
        simp [Outcome.kindIs, Outcome.isErr,
          (by simpa using hsr :
            shouldRefresh st opts.isAuthRequest r₀ = false)]
  · intro k m hsr herr
    have h2 := is2xx_of_shouldRefresh hsr
    rcases hr : refreshAccessToken c st o' with ⟨oc, st1, ev1, tr1, o1⟩
    rw [hr] at herr
    have hoc : oc = .err k m := herr
    subst hoc
    simp [makeRequest, httpRequest, h2, hsr, hr]
  · intro r₂ o₂ hsr hok horc h22
    have h2 := is2xx_of_shouldRefresh hsr
    rcases hr : refreshAccessToken c st o' with ⟨oc, st1, ev1, tr1, o1⟩
    rw [hr] at hok horc
    have hoc : oc = .ok () := hok
    subst hoc
    have ho1 : o1 = r₂ :: o₂ := horc
    subst ho1
    simp [makeRequest, httpRequest, h2, hsr, hr, h22]

/-- C3 witness: a 401 whose refresh call answers 500 surfaces as the
wrapped refresh failure. -/
theorem authRefreshFailed_characterization_witness :
    (makeRequest demoConfig stOldRt .database .GET "read" {}
        [⟨401, .null⟩, ⟨500, .null⟩]).outcome
      = .err .authRefreshFailed
          ("Token expirado y no se pudo refrescar: " ++ "HTTP 500") :=
  (authRefreshFailed_characterization demoConfig stOldRt
    .database .GET "read" {} ⟨401, .null⟩ [⟨500, .null⟩]).2.1
    .apiRequestFailed "HTTP 500" (by rfl) (by rfl)

-- ============================
--  Helper lemmas: wrapper states and the token invariant
-- ============================

theorem read_state (c : ClientConfig) (st : TokenState) (tableName : String)
    (filters : Option (List (String × Json))) (o : Oracle) :
    (read c st tableName filters o).state
      = (makeRequest c st .database .GET "read"
          { query := some (readQuery tableName filters) } o).state := by
  rcases hm : makeRequest c st .database .GET "read"
    { query := some (readQuery tableName filters) } o
    with ⟨oc, st1, ev1, tr1, o1⟩
  cases oc <;> simp [read, hm]

theorem create_state (c : ClientConfig) (st : TokenState)
    (tableName : String) (patch : List (String × Json)) (o : Oracle) :
    (create c st tableName patch o).state
      = (makeRequest c st .database .POST "insert"
          { body := some (.obj [("tableName", .str tableName),
              ("records", .arr [.obj patch])]) } o).state := by
  rcases hm : makeRequest c st .database .POST "insert"
    { body := some (.obj [("tableName", .str tableName),
        ("records", .arr [.obj patch])]) } o
    with ⟨oc, st1, ev1, tr1, o1⟩
  cases oc with
  | ok value =>
    simp only [create, hm]
    split
    · rfl
    · split <;> rfl
  | err k m => simp [create, hm]
  | hang => simp [create, hm]

theorem getById_state (c : ClientConfig) (st : TokenState)
    (tableName : String) (id : Json) (o : Oracle) :
    (getById c st tableName id o).state
      = (read c st tableName (some [("_id", id)]) o).state := by
  rcases hm : read c st tableName (some [("_id", id)]) o
    with ⟨oc, st1, ev1, tr1, o1⟩
  cases oc <;> simp [getById, hm, apply_ite]

/-- The token-store invariant: both tokens present or both absent. -/
def tokensConsistent (st : TokenState) : Prop :=
  st.accessToken.isSome = st.refreshToken.isSome

theorem tokensConsistent_refresh (c : ClientConfig) (st : TokenState)
    (o : Oracle) (hinv : tokensConsistent st) :
    tokensConsistent (refreshAccessToken c st o).state := by
  rcases refreshAccessToken_state_cases c st o with h | ⟨ht, v, h⟩
  · rw [h]
    exact hinv
  · rw [h]
    unfold tokensConsistent
    simp [optTruthy_isSome _ ht]

theorem tokensConsistent_makeRequest (c : ClientConfig) (st : TokenState)
    (kind : Kind) (method : Method) (endpoint : String) (opts : ReqOpts)
    (o : Oracle) (hinv : tokensConsistent st) :
    tokensConsistent (makeRequest c st kind method endpoint opts o).state := by
  rcases makeRequest_state_cases c st kind method endpoint opts o
    with h | ⟨o', h⟩
  · rw [h]
    exact hinv
  · rw [h]
    exact tokensConsistent_refresh c st o' hinv

/-- C4: every public operation preserves the invariant that the access
and refresh tokens are both present or both absent; the refresh
routine rewrites only the access token and never clears or changes the
stored refresh token. -/
theorem token_invariant (c : ClientConfig) (st : TokenState)
    (hinv : tokensConsistent st) :
    (∀ access refresh, tokensConsistent (setTokens st access refresh).1) ∧
    tokensConsistent (clearTokens st).1 ∧
    (∀ kind method endpoint opts o,
      tokensConsistent (makeRequest c st kind method endpoint opts o).state) ∧
    (∀ name email password o,
      tokensConsistent (register c st name email password o).state) ∧
    (∀ rtok o,
      tokensConsistent (refreshTokenManual c st rtok o).state) ∧
    (∀ email password o,
      tokensConsistent (login c st email password o).state) ∧
    (∀ o, tokensConsistent (logout c st o).state) ∧
    (∀ tableName columns o,
      tokensConsistent (createTable c st tableName columns o).state) ∧
    (∀ tableName o,
      tokensConsistent (getTableData c st tableName o).state) ∧
    (∀ tableName patch o,
      tokensConsistent (create c st tableName patch o).state) ∧
    (∀ tableName filters o,
      tokensConsistent (read c st tableName filters o).state) ∧
    (∀ tableName id patch o,
      tokensConsistent (update c st tableName id patch o).state) ∧
    (∀ tableName id o,
      tokensConsistent (deleteRecord c st tableName id o).state) ∧
    (∀ tableName o, tokensConsistent (getAll c st tableName o).state) ∧
    (∀ tableName id o,
      tokensConsistent (getById c st tableName id o).state) ∧
    (∀ tableName column value o,
      tokensConsistent (getWhere c st tableName column value o).state) ∧
    (∀ o, tokensConsistent (refreshAccessToken c st o).state) ∧
    (∀ o, (refreshAccessToken c st o).state.refreshToken
      = st.refreshToken) := by
  refine ⟨?_, ?_, ?_, ?_, ?_, ?_, ?_, ?_, ?_, ?_, ?_, ?_, ?_, ?_, ?_, ?_,
    ?_, ?_⟩
  · intro access refresh
    simp [tokensConsistent, setTokens, updateAccessToken, updateRefreshToken]
  · simp [tokensConsistent, clearTokens, updateAccessToken,
      updateRefreshToken]
  · intro kind method endpoint opts o
    exact tokensConsistent_makeRequest c st kind method endpoint opts o hinv
  · intro name email password o
    exact tokensConsistent_makeRequest _ _ _ _ _ _ _ hinv
  · intro rtok o
    exact tokensConsistent_makeRequest _ _ _ _ _ _ _ hinv
  · intro email password o
    rcases hm : makeRequest c st .auth .POST "login"
      { body := some (.obj [("email", .str email),
          ("password", .str password)]),
        isAuthRequest := true } o with ⟨oc, st1, ev1, tr1, o1⟩
    have hst1 : st1 = st := by
      have hh := (makeRequest_isAuth c st .auth .POST "login"
        { body := some (.obj [("email", .str email),
            ("password", .str password)]),
          isAuthRequest := true } o rfl).1
      rw [hm] at hh
      exact hh
    cases oc with
    | ok data =>
      by_cases hg : (optTruthy (getField data "accessToken")
          && optTruthy (getField data "refreshToken")) = true
      · simp [login, hm, hg, setTokens, updateAccessToken,
          updateRefreshToken, tokensConsistent]
      · have hstate : (login c st email password o).state = st1 := by
          simp [login, hm, hg]
        rw [hstate, hst1]
        exact hinv
    | err k m =>
      have hstate : (login c st email password o).state = st1 := by
        simp [login, hm]
      rw [hstate, hst1]
      exact hinv
    | hang =>
      have hstate : (login c st email password o).state = st1 := by
        simp [login, hm]
      rw [hstate, hst1]
      exact hinv
  · intro o
    by_cases hg : optTruthy st.accessToken
    · rcases hm : makeRequest c st .auth .POST "logout"
        { isAuthRequest := true } o with ⟨oc, st1, ev1, tr1, o1⟩
      have hst1 : st1 = st := by
        have hh := (makeRequest_isAuth c st .auth .POST "logout"
          { isAuthRequest := true } o rfl).1
        rw [hm] at hh
        exact hh
      cases oc with
      | ok u =>
        simp [logout, hg, hm, clearTokens, updateAccessToken,
          updateRefreshToken, tokensConsistent]
      | err k m =>
        have hstate : (logout c st o).state = st1 := by
          simp [logout, hg, hm]
        rw [hstate, hst1]
        exact hinv
      | hang =>
        have hstate : (logout c st o).state = st1 := by
          simp [logout, hg, hm]
        rw [hstate, hst1]
        exact hinv
    · have hstate : (logout c st o).state = st := by
        simp [logout, hg]
      rw [hstate]
      exact hinv
  · intro tableName columns o
    exact tokensConsistent_makeRequest _ _ _ _ _ _ _ hinv
  · intro tableName o
    exact tokensConsistent_makeRequest _ _ _ _ _ _ _ hinv
  · intro tableName patch o
    rw [create_state]
    exact tokensConsistent_makeRequest _ _ _ _ _ _ _ hinv
  · intro tableName filters o
    rw [read_state]
    exact tokensConsistent_makeRequest _ _ _ _ _ _ _ hinv
  · intro tableName id patch o
    exact tokensConsistent_makeRequest _ _ _ _ _ _ _ hinv
  · intro tableName id o
    exact tokensConsistent_makeRequest _ _ _ _ _ _ _ hinv
  · intro tableName o
    rw [getAll, read_state]
    exact tokensConsistent_makeRequest _ _ _ _ _ _ _ hinv
  · intro tableName id o
    rw [getById_state, read_state]
    exact tokensConsistent_makeRequest _ _ _ _ _ _ _ hinv
  · intro tableName column value o
    rw [getWhere, read_state]
    exact tokensConsistent_makeRequest _ _ _ _ _ _ _ hinv
  · intro o
    exact tokensConsistent_refresh c st o hinv
  · intro o
    exact refreshAccessToken_refreshToken_unchanged c st o

/-- C4 witness: the invariant holds after a concrete pipeline run from
a consistent (empty) store. -/
theorem token_invariant_witness :
    tokensConsistent (makeRequest demoConfig
      { accessToken := none, refreshToken := none }
      .database .GET "read" {} []).state :=
  (token_invariant demoConfig { accessToken := none, refreshToken := none }
    (by rfl)).2.2.1 .database .GET "read" {} []

/-- C5: a refresh that fails (guard failure, non-2xx refresh response,
or 2xx response without a truthy access token) leaves both stored
tokens exactly as they were; a failed logout likewise. -/
theorem failed_refresh_and_logout_keep_tokens (c : ClientConfig)
    (st : TokenState) (o : Oracle) :
    (∀ k m, (refreshAccessToken c st o).outcome = .err k m →
      (refreshAccessToken c st o).state = st) ∧
    (∀ k m, (logout c st o).outcome = .err k m →
      (logout c st o).state = st) := by
  constructor
  · exact fun k m h => refreshAccessToken_state_of_err c st o k m h
  · intro k m h
    by_cases hg : optTruthy st.accessToken
    · rcases hm : makeRequest c st .auth .POST "logout"
        { isAuthRequest := true } o with ⟨oc, st1, ev1, tr1, o1⟩
      have hst1 : st1 = st := by
        have hh := (makeRequest_isAuth c st .auth .POST "logout"
          { isAuthRequest := true } o rfl).1
        rw [hm] at hh
        exact hh
      cases oc with
      | ok u =>
        exfalso
        simp [logout, hg, hm, clearTokens, updateAccessToken,
          updateRefreshToken] at h
      | err k' m' =>
        have hstate : (logout c st o).state = st1 := by
          simp [logout, hg, hm]
        rw [hstate, hst1]
      | hang =>
        exfalso
        simp [logout, hg, hm] at h
    · have hstate : (logout c st o).state = st := by
        simp [logout, hg]
      rw [hstate]

/-- C5 witness: a refresh with no stored refresh token and a logout
with no stored access token both fail and both leave the store
unchanged. -/
theorem failed_refresh_and_logout_keep_tokens_witness :
    (refreshAccessToken demoConfig
        { accessToken := none, refreshToken := none } []).state
      = ({ accessToken := none, refreshToken := none } : TokenState)
    ∧ (logout demoConfig { accessToken := none, refreshToken := none }
        []).state
      = ({ accessToken := none, refreshToken := none } : TokenState) :=
  ⟨(failed_refresh_and_logout_keep_tokens demoConfig
      { accessToken := none, refreshToken := none } []).1
      .noRefreshToken "No hay refresh token disponible." (by rfl),
   (failed_refresh_and_logout_keep_tokens demoConfig
      { accessToken := none, refreshToken := none } []).2
      .noActiveSession "No hay token activo para cerrar sesión." (by rfl)⟩

/-- C6: a 2xx login whose body carries truthy `accessToken` and
`refreshToken` values (the source's test for "contains both") stores
both, notifies the observer exactly once with the new access token,
and returns the raw body; otherwise the token store is left unchanged
(and no notification fires). -/
theorem login_success_behavior (c : ClientConfig) (st : TokenState)
    (email password : String) (r₀ : Response) (o' : Oracle)
    (h2 : is2xx r₀ = true) :
    (∀ a b, getField r₀.data "accessToken" = some a → jsTruthy a = true →
      getField r₀.data "refreshToken" = some b → jsTruthy b = true →
      (login c st email password (r₀ :: o')).outcome = .ok r₀.data ∧
      getAccessToken (login c st email password (r₀ :: o')).state = some a ∧
      getRefreshToken (login c st email password (r₀ :: o')).state
        = some b ∧
      (login c st email password (r₀ :: o')).events = [some a]) ∧
    ((optTruthy (getField r₀.data "accessToken")
        && optTruthy (getField r₀.data "refreshToken")) = false →
      (login c st email password (r₀ :: o')).outcome = .ok r₀.data ∧
      (login c st email password (r₀ :: o')).state = st ∧
      (login c st email password (r₀ :: o')).events = []) := by
  have hm2 := makeRequest_2xx c st .auth .POST "login"
    { body := some (.obj [("email", .str email),
        ("password", .str password)]),
      isAuthRequest := true } r₀ o' h2
  constructor
  · intro a b ha hta hb htb
    have hg : (optTruthy (getField r₀.data "accessToken")
        && optTruthy (getField r₀.data "refreshToken")) = true := by
      rw [ha, hb]
      simp [optTruthy, hta, htb]
    refine ⟨?_, ?_, ?_, ?_⟩ <;>
      simp [login, hm2, hg, ha, hb, optTruthy, hta, htb, setTokens,
        updateAccessToken, updateRefreshToken, getAccessToken,
        getRefreshToken]
  · intro hg
    refine ⟨?_, ?_, ?_⟩ <;> simp [login, hm2, hg]

/-- C6 witness: login against `{accessToken: "a", refreshToken: "b"}`
stores both tokens and notifies once with `"a"`. -/
theorem login_success_behavior_witness :
    getAccessToken (login demoConfig
        { accessToken := none, refreshToken := none } "e" "p"
        [⟨200, .obj [("accessToken", .str "a"),
          ("refreshToken", .str "b")]⟩]).state = some (.str "a")
    ∧ (login demoConfig { accessToken := none, refreshToken := none }
        "e" "p" [⟨200, .obj [("accessToken", .str "a"),
          ("refreshToken", .str "b")]⟩]).events = [some (.str "a")] :=
  ⟨((login_success_behavior demoConfig
      { accessToken := none, refreshToken := none } "e" "p"
      ⟨200, .obj [("accessToken", .str "a"), ("refreshToken", .str "b")]⟩
      [] (by rfl)).1 (.str "a") (.str "b")
      (by rfl) (by rfl) (by rfl) (by rfl)).2.1,
   ((login_success_behavior demoConfig
      { accessToken := none, refreshToken := none } "e" "p"
      ⟨200, .obj [("accessToken", .str "a"), ("refreshToken", .str "b")]⟩
      [] (by rfl)).1 (.str "a") (.str "b")
      (by rfl) (by rfl) (by rfl) (by rfl)).2.2.2⟩

/-- C7: logout with no (truthy) stored access token fails with
`NoActiveSession` and sends nothing; logout with a stored access token
and a 2xx response clears both tokens regardless of the response
body. -/
theorem logout_behavior (c : ClientConfig) (st : TokenState) :
    (∀ o, optTruthy st.accessToken = false →
      logout c st o
        = ⟨.err .noActiveSession "No hay token activo para cerrar sesión.",
            st, [], [], o⟩) ∧
    (∀ r₀ o', optTruthy st.accessToken = true → is2xx r₀ = true →
      getAccessToken (logout c st (r₀ :: o')).state = none ∧
      getRefreshToken (logout c st (r₀ :: o')).state = none ∧
      (logout c st (r₀ :: o')).outcome = .ok ()) := by
  constructor
  · intro o hno
    simp [logout, hno]
  · intro r₀ o' hyes h2
    have hm2 := makeRequest_2xx c st .auth .POST "logout"
      { isAuthRequest := true } r₀ o' h2
    refine ⟨?_, ?_, ?_⟩ <;>
      simp [logout, hyes, hm2, clearTokens, updateAccessToken,
        updateRefreshToken, getAccessToken, getRefreshToken]

/-- C7 witness: both behaviors at concrete inputs (the 2xx body is
`null`, exercising "regardless of the response body's content"). -/
theorem logout_behavior_witness :
    logout demoConfig { accessToken := none, refreshToken := none } []
      = ⟨.err .noActiveSession "No hay token activo para cerrar sesión.",
          { accessToken := none, refreshToken := none }, [], [], []⟩
    ∧ getAccessToken (logout demoConfig stOldRt [⟨200, .null⟩]).state = none
    ∧ getRefreshToken (logout demoConfig stOldRt
        [⟨200, .null⟩]).state = none :=
  ⟨(logout_behavior demoConfig
      { accessToken := none, refreshToken := none }).1 [] (by rfl),
   ((logout_behavior demoConfig stOldRt).2 ⟨200, .null⟩ []
      (by rfl) (by rfl)).1,
   ((logout_behavior demoConfig stOldRt).2 ⟨200, .null⟩ []
      (by rfl) (by rfl)).2.1⟩

end Roble
